import Mathlib

/-!
Shallow embedding of the duck-ui client-side session manager
(`src/store/index.ts` and `src/components/explorer/FileImporter.tsx`),
together with theorems settling the specification claims about it.

JavaScript runtime values that flow through the store (parsed JSON,
Arrow row objects, property accesses that may yield `undefined`) are
modelled by the inductive type `JSVal`; JS objects are modelled as
insertion-ordered association lists whose assignment operator
(`objSet`) overwrites an existing key in place, as JS property
assignment does.  Asynchronous collaborator calls (the WASM engine,
HTTP fetch) are modelled by `Except`-valued parameters carrying the
outcome of the call.
-/

namespace DuckUI

/-- JavaScript runtime value: the subset of values the store manipulates.
`undefined` models the result of a missing property or out-of-range index;
`date` models a JS `Date` object by its millisecond value. -/
inductive JSVal where
  | undefined : JSVal
  | null : JSVal
  | bool (b : Bool) : JSVal
  | num (n : Int) : JSVal
  | str (s : String) : JSVal
  | arr (xs : List JSVal) : JSVal
  | obj (fields : List (String × JSVal)) : JSVal

/-- Property read `j[key]` on a JS value: a lookup in the fields of an object,
`none` (that is, `undefined`) for a missing key or a non-object. -/
def jsGet (j : JSVal) (key : String) : Option JSVal :=
  match j with
  | JSVal.obj fields => (fields.find? (fun p => p.1 = key)).map (fun p => p.2)
  | _ => none

/-- Truthiness of a JS value (`undefined`, `null`, `false`, `0`, and the
empty string are falsy; objects and arrays are always truthy). -/
def jsTruthy : Option JSVal → Bool
  | none => false
  | some JSVal.undefined => false
  | some JSVal.null => false
  | some (JSVal.bool b) => b
  | some (JSVal.num n) => n != 0
  | some (JSVal.str s) => s ≠ ""
  | some (JSVal.arr _) => true
  | some (JSVal.obj _) => true

/-- Elements of a JS value viewed as an array; indexing any non-array with
a numeric index yields `undefined`, modelled by the empty list here. -/
def jsElems : JSVal → List JSVal
  | JSVal.arr xs => xs
  | _ => []

/-- String coercion used when a JS value is used as a property key
(ToPropertyKey).  Exact on strings, which is the only case exercised by a
well-formed result envelope. -/
def jsKeyString : Option JSVal → String
  | none => "undefined"
  | some JSVal.undefined => "undefined"
  | some JSVal.null => "null"
  | some (JSVal.bool b) => if b then "true" else "false"
  | some (JSVal.num n) => toString n
  | some (JSVal.str s) => s
  | some (JSVal.arr _) => ""
  | some (JSVal.obj _) => "[object Object]"

/-- Integer view of a JS value, used for the `rows` field of the remote
result envelope. -/
def jsAsInt : Option JSVal → Int
  | some (JSVal.num n) => n
  | _ => 0

/-- Row objects produced by the normalizers: JS objects as
insertion-ordered association lists. -/
abbrev RowObj := List (String × JSVal)

/-- Property assignment `obj[k] = v` on a JS object: overwrites the value
of an existing key in place (key order unchanged), otherwise appends the
new key at the end. -/
def objSet (o : RowObj) (k : String) (v : JSVal) : RowObj :=
  if o.any (fun p => p.1 = k) then
    o.map (fun p => if p.1 = k then (k, v) else p)
  else
    o ++ [(k, v)]

/-- Property read on a row object, `none` meaning `undefined`. -/
def objGet (o : RowObj) (k : String) : Option JSVal :=
  (o.find? (fun p => p.1 = k)).map (fun p => p.2)

/-- Canonical query result produced by both normalizers
(`QueryResult` in `src/store/index.ts`): `data` holds the row objects. -/
structure QueryResult where
  columns : List String
  columnTypes : List String
  data : List RowObj
  rowCount : Int
  error : Option String := none

/-- Row-object construction in `rawResultToJSON`: the
`columns.forEach((col, index) => rowObject[col] = row[index])` loop.
Out-of-range indexing stores `undefined`. -/
def buildRow (columns : List String) (row : List JSVal) : RowObj :=
  columns.enum.foldl (fun o p => objSet o p.2 ((row.get? p.1).getD JSVal.undefined)) []

/-- Embedding of `rawResultToJSON` (`src/store/index.ts` lines 178-214) on
an already-parsed JSON value.  The source throws unless `parsed.meta` and
`parsed.data` are truthy arrays; a falsy value is never an array and a
truthy non-array fails `Array.isArray`, so the success condition is
exactly that both properties are arrays.  Thrown errors are modelled as
`Except.error`; a `JSON.parse` failure on the raw text is the
`Except.error` case of the caller and is not reached here. -/
def rawResultToJSON (parsed : JSVal) : Except String QueryResult :=
  match jsGet parsed "meta", jsGet parsed "data" with
  | some (JSVal.arr ms), some (JSVal.arr ds) =>
    let columns := ms.map (fun m => jsKeyString (jsGet m "name"))
    let columnTypes := ms.map (fun m => jsKeyString (jsGet m "type"))
    let data := ds.map (fun row => buildRow columns (jsElems row))
    Except.ok
      { columns := columns
        columnTypes := columnTypes
        data := data
        rowCount :=
          if jsTruthy (jsGet parsed "rows") then jsAsInt (jsGet parsed "rows")
          else (ds.length : Int) }
  | _, _ =>
    Except.error
      "Failed to parse raw result: Invalid raw result format: meta or data are missing or have the wrong format"

/-- Arrow schema field of a WASM result: `field.name` and
`field.type.toString()`. -/
structure ArrowField where
  name : String
  type : String

/-- WASM query result handle as consumed by `resultToJSON`: the schema
fields, the row objects delivered by `row.toJSON()`, and `numRows`. -/
structure ArrowResult where
  fields : List ArrowField
  rows : List RowObj
  numRows : Int

/-- Per-field step of the `result.schema.fields.forEach` loop in
`resultToJSON`: a `null`/`undefined` cell is left untouched; a
`Date32<DAY>` cell is replaced by `new Date(value).toLocaleDateString()`
and a `Date64<MILLISECOND>`/`Timestamp<MICROSECOND>` cell by
`new Date(value)`.  The two JS `Date` constructions are external
collaborators and are passed in as `localeDateString` and `newDate`. -/
def processField (localeDateString : JSVal → String) (newDate : JSVal → JSVal)
    (r : RowObj) (f : ArrowField) : RowObj :=
  match objGet r f.name with
  | none => r
  | some JSVal.undefined => r
  | some JSVal.null => r
  | some v =>
    if f.type = "Date32<DAY>" then
      objSet r f.name (JSVal.str (localeDateString v))
    else if f.type = "Date64<MILLISECOND>" ∨ f.type = "Timestamp<MICROSECOND>" then
      objSet r f.name (newDate v)
    else r

/-- Embedding of `resultToJSON` (`src/store/index.ts` lines 217-251):
normalizes a WASM result into a `QueryResult`, materializing date and
timestamp columns as language-native temporal values. -/
def resultToJSON (localeDateString : JSVal → String) (newDate : JSVal → JSVal)
    (result : ArrowResult) : QueryResult :=
  { columns := result.fields.map (fun f => f.name)
    columnTypes := result.fields.map (fun f => f.type)
    data := result.rows.map (fun row => result.fields.foldl (processField localeDateString newDate) row)
    rowCount := result.numRows }

/-- Connection scope: the built-in embedded WASM engine or an external
HTTP endpoint. -/
inductive Scope where
  | WASM : Scope
  | External : Scope
deriving DecidableEq

/-- Connection descriptor (`ConnectionProvider` in `src/store/index.ts`).
The `authMode` union of string literals is kept as a string. -/
structure ConnectionProvider where
  id : String
  name : String
  scope : Scope
  host : Option String := none
  port : Option Nat := none
  user : Option String := none
  password : Option String := none
  database : Option String := none
  authMode : Option String := none
deriving DecidableEq

/-- Registry of configured connections (`ConnectionList`). -/
structure ConnectionList where
  connections : List ConnectionProvider
deriving DecidableEq

/-- The currently active connection (`CurrentConnection`): structurally
identical to a descriptor in the source. -/
structure CurrentConnection where
  id : String
  name : String
  scope : Scope
  host : Option String := none
  port : Option Nat := none
  user : Option String := none
  password : Option String := none
  database : Option String := none
  authMode : Option String := none
deriving DecidableEq

/-- Column metadata of an introspected table (`ColumnInfo`). -/
structure ColumnInfo where
  name : String
  type : String
  nullable : Bool
deriving DecidableEq

/-- Introspected table snapshot (`TableInfo`). -/
structure TableInfo where
  name : String
  schema : String
  columns : List ColumnInfo
  rowCount : Int
  createdAt : String
deriving DecidableEq

/-- Introspected database snapshot (`DatabaseInfo`). -/
structure DatabaseInfo where
  name : String
  tables : List TableInfo
deriving DecidableEq

/-- History ledger entry (`QueryHistoryItem`); the `Date` timestamp is
modelled as a natural number of milliseconds. -/
structure QueryHistoryItem where
  id : String
  query : String
  timestamp : Nat
  error : Option String := none
deriving DecidableEq

/-- Construction of the fresh history item in `updateHistory`: the spread
`...(errorMsg ? { error: errorMsg } : {})` omits the `error` field when
`errorMsg` is absent or falsy (the empty string). -/
def mkHistoryItem (newId : String) (query : String) (now : Nat)
    (errorMsg : Option String) : QueryHistoryItem :=
  { id := newId
    query := query
    timestamp := now
    error :=
      match errorMsg with
      | some s => if s = "" then none else some s
      | none => none }

/-- Embedding of `updateHistory` (`src/store/index.ts` lines 337-356):
prepends a fresh item, drops the first previous entry with the same query
text (`findIndex` + `filter` on the index, that is `eraseIdx`), and
truncates with `slice(0, 15)`.  The fresh `crypto.randomUUID()` and
`new Date()` are passed in as `newId` and `now`. -/
def updateHistory (currentHistory : List QueryHistoryItem) (query : String)
    (errorMsg : Option String) (newId : String) (now : Nat) :
    List QueryHistoryItem :=
  let newItem := mkHistoryItem newId query now errorMsg
  match currentHistory.findIdx? (fun item => item.query = query) with
  | some i => (newItem :: currentHistory.eraseIdx i).take 15
  | none => (newItem :: currentHistory).take 15

/-- Editor tab kind (`EditorTabType`). -/
inductive EditorTabType where
  | sql : EditorTabType
  | home : EditorTabType
deriving DecidableEq

/-- Tab content: a query string or a `{database?, table?}` reference. -/
inductive TabContent where
  | text (s : String) : TabContent
  | ref (database : Option String) (table : Option String) : TabContent
deriving DecidableEq

/-- Editor tab (`EditorTab`). -/
structure EditorTab where
  id : String
  title : String
  type : EditorTabType
  content : TabContent
  result : Option QueryResult := none

/-- Aggregate store state (`DuckStoreState`): the opaque WASM database
and connection handles are modelled as `Option Unit` (present or null). -/
structure StoreState where
  db : Option Unit
  connection : Option Unit
  isInitialized : Bool
  currentDatabase : String
  currentConnection : Option CurrentConnection
  connectionList : ConnectionList
  databases : List DatabaseInfo
  queryHistory : List QueryHistoryItem
  isExecuting : Bool
  tabs : List EditorTab
  activeTabId : Option String
  isLoading : Bool
  error : Option String
  isLoadingDbTablesFetch : Bool
  isLoadingExternalConnection : Bool

/-- The reserved built-in embedded descriptor `{id: "WASM", name: "WASM",
scope: "WASM"}`. -/
def wasmDescriptor : ConnectionProvider :=
  { id := "WASM", name := "WASM", scope := Scope.WASM }

/-- The single home tab present in the initial state. -/
def homeTab : EditorTab :=
  { id := "home", title := "Home", type := EditorTabType.home, content := TabContent.text "" }

/-- Initial store state (`src/store/index.ts` lines 415-445). -/
def initialStoreState : StoreState :=
  { db := none
    connection := none
    isInitialized := false
    currentDatabase := "memory"
    currentConnection := none
    connectionList := { connections := [wasmDescriptor] }
    databases := []
    queryHistory := []
    isExecuting := false
    tabs := [homeTab]
    activeTabId := some "home"
    isLoading := false
    error := none
    isLoadingDbTablesFetch := true
    isLoadingExternalConnection := false }

/-- Whitespace stripped by JS `String.prototype.trim` (restricted to the
ASCII white space and line terminator characters). -/
def jsWhitespace (c : Char) : Bool :=
  c = ' ' || c = '\t' || c = '\n' || c = '\r' || c = '\x0b' || c = '\x0c'

/-- JS `s.trim()`: strips leading and trailing whitespace. -/
def jsTrim (s : String) : String :=
  String.mk (((s.toList.dropWhile jsWhitespace).reverse.dropWhile jsWhitespace).reverse)

/-- ASCII uppercase of a string, modelling the case folding done by the
case-insensitive regex flag on ASCII letters. -/
def asciiUpper (s : String) : String :=
  String.mk (s.toList.map Char.toUpper)

/-- Whether `p` is a prefix of `s`. -/
def strStarts (s p : String) : Bool :=
  p.toList.isPrefixOf s.toList

/-- Test of the DDL dispatch regex
`/^(CREATE|ALTER|DROP|ATTACH)/i.test(query.trim())` in `executeQuery`:
case-insensitive prefix match of one of the four keywords on the trimmed
query text (no word boundary is required by the regex). -/
def isDDL (query : String) : Bool :=
  let u := asciiUpper (jsTrim query)
  strStarts u "CREATE" || strStarts u "ALTER" || strStarts u "DROP" || strStarts u "ATTACH"

/-- The `QueryResult` built in the catch branch of `executeQuery`: empty
columns, empty rows, zero row count, and the error message as data. -/
def errorQueryResult (msg : String) : QueryResult :=
  { columns := [], columnTypes := [], data := [], rowCount := 0, error := some msg }

/-- Embedding of `fetchDatabasesAndTablesInfo` (`src/store/index.ts`
lines 584-605).  For an external active connection the snapshot is
cleared; for the embedded path, `validateConnection` throws when the
connection handle is null (caught by the catch of the function itself), otherwise
the outcome of the `fetchWasmDatabases` collaborator call is passed in as
`fetchResult`.  The function catches every error itself and never
throws. -/
def fetchDatabasesAndTablesInfo (s : StoreState)
    (fetchResult : Except String (List DatabaseInfo)) : StoreState :=
  let s1 := { s with isLoadingDbTablesFetch := true, error := none }
  let s2 :=
    if s1.currentConnection.map (fun c => c.scope) = some Scope.External then
      { s1 with databases := [], error := none }
    else
      match s1.connection with
      | none =>
        { s1 with error := some "Failed to load schema: Database connection is not valid" }
      | some _ =>
        match fetchResult with
        | Except.ok dbs => { s1 with databases := dbs, error := none }
        | Except.error msg => { s1 with error := some ("Failed to load schema: " ++ msg) }
  { s2 with isLoadingDbTablesFetch := false }

/-- Embedding of `executeQuery` (`src/store/index.ts` lines 482-533).
The backend call (external HTTP round-trip plus `rawResultToJSON`, or the
WASM `connection.query` plus `resultToJSON`) is passed in as `backend`;
`validateConnection` fails deterministically when the embedded handle is
null.  Returns the final state, the value returned to the caller
(`undefined` when a `tabId` was supplied or on error, modelled as
`none`), and the number of schema refreshes triggered.  The catch clause converts every failure into state, so the embedding is total. -/
def executeQuery (s : StoreState) (query : String) (tabId : Option String)
    (backend : Except String QueryResult) (newId : String) (now : Nat)
    (fetchResult : Except String (List DatabaseInfo)) :
    StoreState × Option QueryResult × Nat :=
  let s1 := { s with isExecuting := true, error := none }
  let outcome : Except String QueryResult :=
    if s1.currentConnection.map (fun c => c.scope) = some Scope.External then backend
    else
      match s1.connection with
      | none => Except.error "Database connection is not valid"
      | some _ => backend
  match outcome with
  | Except.ok queryResult =>
    let s2 := { s1 with
      queryHistory := updateHistory s1.queryHistory query none newId now
      tabs := s1.tabs.map (fun tab =>
        if some tab.id = tabId then { tab with result := some queryResult } else tab)
      isExecuting := false }
    if isDDL query then
      (fetchDatabasesAndTablesInfo s2 fetchResult,
       if tabId.isSome then none else some queryResult, 1)
    else
      (s2, if tabId.isSome then none else some queryResult, 0)
  | Except.error errorMessage =>
    let s2 := { s1 with
      queryHistory := updateHistory s1.queryHistory query (some errorMessage) newId now
      tabs := s1.tabs.map (fun tab =>
        if some tab.id = tabId then { tab with result := some (errorQueryResult errorMessage) } else tab)
      isExecuting := false
      error := some errorMessage }
    (s2, none, 0)

/-- The fresh default query tab synthesized by `closeTab` when removal
empties the tab set. -/
def freshQueryTab (newId : String) : EditorTab :=
  { id := newId, title := "Query 1", type := EditorTabType.sql, content := TabContent.text "" }

/-- Embedding of `closeTab` (`src/store/index.ts` lines 621-645): filters
the tab out; when the set becomes empty a fresh default query tab is
created and activated (its `crypto.randomUUID()` is passed as `newId`);
when the closed tab was active, `updatedTabs[0]?.id || null` falls back to
the first remaining tab (JS `||` maps an empty-string id to null).
Returns the new tab list and active tab id. -/
def closeTab (tabs : List EditorTab) (activeTabId : Option String)
    (tabId : String) (newId : String) : List EditorTab × Option String :=
  let updatedTabs := tabs.filter (fun tab => tab.id ≠ tabId)
  if updatedTabs.length = 0 then
    ([freshQueryTab newId], some newId)
  else if activeTabId = some tabId then
    (updatedTabs,
     match updatedTabs.head? with
     | some t => if t.id = "" then none else some t.id
     | none => none)
  else
    (updatedTabs, activeTabId)

/-- Embedding of `moveTab` (`src/store/index.ts` lines 669-676), which
performs two unchecked JS `splice` calls.  `splice(oldIndex, 1)` with
`oldIndex` past the end removes nothing and destructures `movedTab` to
`undefined` (`none` here); `splice(newIndex, 0, movedTab)` clamps the
insertion position to the array length.  The result can therefore contain
an `undefined` entry, so the element type is `Option EditorTab`. -/
def moveTab (tabs : List EditorTab) (oldIndex newIndex : Nat) :
    List (Option EditorTab) :=
  let movedTab : Option EditorTab := tabs.get? oldIndex
  let afterRemove := tabs.eraseIdx oldIndex
  let k := min newIndex afterRemove.length
  (afterRemove.map some).take k ++ [movedTab] ++ (afterRemove.map some).drop k

/-- Embedding of `addConnection` (`src/store/index.ts` lines 771-808).
The liveness probe `testExternalConnection` (lines 312-331) is an external
HTTP call whose outcome is passed in as `probe`; the returned boolean
records whether that probe call was made.  The duplicate-name check is a
case-sensitive exact `find` on `name` and throws before any probe; the
catch clause turns every thrown error into the `error` field. -/
def addConnection (s : StoreState) (conn : ConnectionProvider)
    (probe : Except String Unit) : StoreState × Bool :=
  let s1 := { s with isLoadingExternalConnection := true, error := none }
  if (s1.connectionList.connections.find? (fun c => c.name = conn.name)).isSome then
    ({ s1 with error := some ("Failed to add connection: A connection with the name \""
        ++ conn.name ++ "\" already exists.") }, false)
  else if conn.scope = Scope.External then
    match probe with
    | Except.ok _ =>
      ({ s1 with connectionList := { connections := s1.connectionList.connections ++ [conn] } },
       true)
    | Except.error msg =>
      ({ s1 with error := some ("Failed to add connection: " ++ msg) }, true)
  else
    ({ s1 with connectionList := { connections := s1.connectionList.connections ++ [conn] } },
     false)

/-- Embedding of `updateConnection` (`src/store/index.ts` lines 810-818):
replaces every stored descriptor whose `id` matches the id of the argument. -/
def updateConnection (s : StoreState) (conn : ConnectionProvider) : StoreState :=
  { s with connectionList :=
      { connections := s.connectionList.connections.map (fun c =>
          if c.id = conn.id then conn else c) } }

/-- Embedding of `deleteConnection` (`src/store/index.ts` lines 820-828):
filters out every stored descriptor whose `id` matches. -/
def deleteConnection (s : StoreState) (id : String) : StoreState :=
  { s with connectionList :=
      { connections := s.connectionList.connections.filter (fun c => c.id ≠ id) } }

/-- Embedding of `cleanup` (`src/store/index.ts` lines 742-768).  The
`try`/`finally` releases the handles (`connection.close()`, then
`db.terminate()`, each of which may throw — outcomes passed in as
`closeThrows`/`terminateThrows`) and in all cases resets the
session-scoped state in the `finally` block; an exception from the `try`
body propagates after the reset, reported in the returned boolean. -/
def cleanup (s : StoreState) (closeThrows terminateThrows : Bool) :
    StoreState × Bool :=
  let thrown :=
    (s.connection.isSome && closeThrows)
      || (!(s.connection.isSome && closeThrows) && (s.db.isSome && terminateThrows))
  ({ s with
      db := none
      connection := none
      isInitialized := false
      databases := []
      currentDatabase := "memory"
      error := none
      queryHistory := []
      tabs := [homeTab]
      activeTabId := some "home"
      currentConnection := none },
   thrown)

/-- Status of an import job (`FileImportState.status` in
`src/components/explorer/FileImporter.tsx`). -/
inductive JobStatus where
  | pending : JobStatus
  | uploading : JobStatus
  | processing : JobStatus
  | success : JobStatus
  | error (msg : String) : JobStatus
deriving DecidableEq

/-- Validation outcome of the zod `tableNameSchema` (trim, then `min(1)`,
then `/^[a-zA-Z0-9_]+$/`) applied to `tableNames[file.name]`: `none` means
the name parses, otherwise the first zod issue message.  A missing entry
(`undefined`) fails the zod type check with message `Required`. -/
def tableNameSchemaMsg (s : Option String) : Option String :=
  match s with
  | none => some "Required"
  | some v =>
    let t := jsTrim v
    if t = "" then some "Table name cannot be empty"
    else if t.toList.all (fun c => c.isAlphanum || c = '_') then none
    else some "Table name can only contain letters, numbers, and underscores"

/-- Functional update of the `importStates` record
(`{...prev, [fileName]: {...prev[fileName], ...state}}`): overwrites an
existing key in place, otherwise appends it. -/
def setImportStatus (states : List (String × JobStatus)) (name : String)
    (st : JobStatus) : List (String × JobStatus) :=
  if states.any (fun p => p.1 = name) then
    states.map (fun p => if p.1 = name then (name, st) else p)
  else
    states ++ [(name, st)]

/-- Slice of the `FileImporter` component state driving `handleFileUpload`:
the submitted file names (in order), the chosen table names, the
per-file import states, and the accumulated error messages. -/
structure ImporterState where
  files : List String
  tableNames : List (String × String)
  importStates : List (String × JobStatus)
  errors : List String

/-- Embedding of the synchronous phase of `handleFileUpload`
(`src/components/explorer/FileImporter.tsx` lines 421-504).  The
`files.map(async (file) => ...)` expression invokes every async body
immediately; under JS cooperative scheduling each body runs synchronously
up to its first `await` (`file.arrayBuffer()`), so before any job can
complete, every file is either skipped (already `success`), failed fast on
an invalid table name, or marked `processing`.  The later chunked
`Promise.all` calls only await promises that are already running. -/
def handleFileUploadSyncPhase (st : ImporterState) : ImporterState :=
  st.files.foldl (fun acc name =>
    match (acc.importStates.find? (fun p => p.1 = name)).map (fun p => p.2) with
    | some JobStatus.success => acc
    | _ =>
      match tableNameSchemaMsg ((acc.tableNames.find? (fun p => p.1 = name)).map (fun p => p.2)) with
      | some msg =>
        { acc with
            errors := acc.errors ++ [msg]
            importStates := setImportStatus acc.importStates name (JobStatus.error msg) }
      | none =>
        { acc with
            importStates := setImportStatus acc.importStates name JobStatus.processing })
    st

/-- Whether a job is in flight: the `uploading` or `processing` status. -/
def isInFlight : JobStatus → Bool
  | JobStatus.uploading => true
  | JobStatus.processing => true
  | _ => false

/-- Number of import jobs simultaneously in the `uploading`/`processing`
state. -/
def countInFlight (states : List (String × JobStatus)) : Nat :=
  states.countP (fun p => isInFlight p.2)

/-- The fixed concurrency cap `MAX_CONCURRENT_UPLOADS` declared in
`src/components/explorer/FileImporter.tsx` line 60. -/
def MAX_CONCURRENT_UPLOADS : Nat := 3

/-- Batch of ten freshly submitted valid files: every file has a valid
derived table name and a `pending` import state. -/
def tenFileBatch : ImporterState :=
  { files := ["f1.csv", "f2.csv", "f3.csv", "f4.csv", "f5.csv",
              "f6.csv", "f7.csv", "f8.csv", "f9.csv", "f10.csv"]
    tableNames := [("f1.csv", "f1"), ("f2.csv", "f2"), ("f3.csv", "f3"),
                   ("f4.csv", "f4"), ("f5.csv", "f5"), ("f6.csv", "f6"),
                   ("f7.csv", "f7"), ("f8.csv", "f8"), ("f9.csv", "f9"),
                   ("f10.csv", "f10")]
    importStates := [("f1.csv", JobStatus.pending), ("f2.csv", JobStatus.pending),
                     ("f3.csv", JobStatus.pending), ("f4.csv", JobStatus.pending),
                     ("f5.csv", JobStatus.pending), ("f6.csv", JobStatus.pending),
                     ("f7.csv", JobStatus.pending), ("f8.csv", JobStatus.pending),
                     ("f9.csv", JobStatus.pending), ("f10.csv", JobStatus.pending)]
    errors := [] }

/-!  Theorems settling the specification claims.  -/

/-- C1: the claim says at most `MAX_CONCURRENT_UPLOADS = 3` import jobs
are ever simultaneously in the `uploading`/`processing` state.  The code
violates this: `files.map(async ...)` starts all ten job bodies at once,
and each body synchronously reaches the `processing` status before its
first `await`; the chunked `Promise.all` only groups the awaiting of
promises that are already in flight.  Evaluating the synchronous start
phase on a batch of ten valid pending files shows all ten jobs
simultaneously in flight, exceeding the declared cap. -/
theorem handleFileUpload_all_ten_in_flight :
    countInFlight (handleFileUploadSyncPhase tenFileBatch).importStates = 10 ∧
    MAX_CONCURRENT_UPLOADS <
      countInFlight (handleFileUploadSyncPhase tenFileBatch).importStates := by
  constructor <;> decide

/-- C2 counterexample: the claim says `deleteConnection` on the reserved
id of the embedded descriptor is a no-op or rejected.  On the initial state,
which contains the reserved descriptor, `deleteConnection "WASM"` leaves
an empty connection list: the descriptor is gone. -/
theorem deleteConnection_wasm_counterexample :
    wasmDescriptor ∈ initialStoreState.connectionList.connections ∧
    (deleteConnection initialStoreState "WASM").connectionList.connections = [] := by
  constructor
  · simp [initialStoreState]
  · rfl

/-- C2 amended: the store-level `deleteConnection` and `updateConnection`
do not protect the reserved embedded descriptor: deleting by the reserved
id removes every descriptor carrying it, and updating with a descriptor
carrying the reserved id overwrites the stored embedded descriptor (the
protection exists only in the UI, which disables those buttons). -/
theorem reserved_wasm_not_protected (s : StoreState) (d : ConnectionProvider)
    (hid : d.id = "WASM") (hne : d ≠ wasmDescriptor) :
    (∀ c ∈ (deleteConnection s "WASM").connectionList.connections, c.id ≠ "WASM") ∧
    (wasmDescriptor ∈ s.connectionList.connections →
      wasmDescriptor ∉ (updateConnection s d).connectionList.connections) := by
  constructor
  · intro c hc
    have h := (List.mem_filter.mp hc).2
    simpa using h
  · intro _ hmem
    rcases List.mem_map.mp hmem with ⟨c, _, hc⟩
    by_cases hcid : c.id = d.id
    · simp [hcid] at hc
      exact hne (hc ▸ rfl)
    · simp [hcid] at hc
      apply hcid
      rw [hc, hid]
      rfl

/-- C2 amended witness: a concrete descriptor with the reserved id but a
different name removes and overwrites the embedded descriptor. -/
theorem reserved_wasm_not_protected_witness :
    ({ id := "WASM", name := "other", scope := Scope.WASM } : ConnectionProvider).id = "WASM" ∧
    ({ id := "WASM", name := "other", scope := Scope.WASM } : ConnectionProvider) ≠ wasmDescriptor ∧
    ((∀ c ∈ (deleteConnection initialStoreState "WASM").connectionList.connections, c.id ≠ "WASM") ∧
     (wasmDescriptor ∈ initialStoreState.connectionList.connections →
       wasmDescriptor ∉
         (updateConnection initialStoreState
           { id := "WASM", name := "other", scope := Scope.WASM }).connectionList.connections)) :=
  ⟨rfl, by decide,
   reserved_wasm_not_protected initialStoreState
     { id := "WASM", name := "other", scope := Scope.WASM } rfl (by decide)⟩

/-- C9 counterexample: the claim says an out-of-range index passed to
`moveTab` is signalled as an `IndexError`.  Instead, on a single-tab
state, `moveTab` with `oldIndex = 1` (out of range) silently returns a
two-element list whose first entry is `undefined`: the unchecked `splice`
removed nothing, destructured `undefined`, and inserted it. -/
theorem moveTab_out_of_range_counterexample :
    moveTab [homeTab] 1 0 = [none, some homeTab] := rfl

/-- C9 amended: `moveTab` performs no bounds check.  With `oldIndex` out
of range the first `splice` removes nothing and yields `undefined`, which
the second `splice` inserts at `newIndex` (clamped to the array length):
the tab list silently grows by one `undefined` entry and no error is
signalled. -/
theorem moveTab_out_of_range_inserts_undefined (tabs : List EditorTab)
    (oldIndex newIndex : Nat) (h : tabs.length ≤ oldIndex) :
    moveTab tabs oldIndex newIndex =
      (tabs.map some).take (min newIndex tabs.length) ++ [none] ++
        (tabs.map some).drop (min newIndex tabs.length) ∧
    (moveTab tabs oldIndex newIndex).length = tabs.length + 1 := by
  have hget : tabs.get? oldIndex = none := List.get?_eq_none.mpr h
  have herase : tabs.eraseIdx oldIndex = tabs := List.eraseIdx_eq_self.mpr h
  constructor
  · simp [moveTab, hget, herase]
    exact h
  · simp [moveTab, hget, herase]
    omega

/-- C9 amended witness: moving from index 2 with a single tab. -/
theorem moveTab_out_of_range_witness :
    ([homeTab] : List EditorTab).length ≤ 2 ∧
    (moveTab [homeTab] 2 5 =
      (([homeTab] : List EditorTab).map some).take (min 5 ([homeTab] : List EditorTab).length) ++ [none] ++
        (([homeTab] : List EditorTab).map some).drop (min 5 ([homeTab] : List EditorTab).length) ∧
     (moveTab [homeTab] 2 5).length = ([homeTab] : List EditorTab).length + 1) :=
  ⟨by decide, moveTab_out_of_range_inserts_undefined [homeTab] 2 5 (by decide)⟩

/-- C10: `cleanup` resets the session state fields to their initial
values in its `finally` block even when releasing the backend handle
throws, and a second `cleanup` immediately after is a no-op on the state
(and itself releases nothing, so it cannot throw). -/
theorem cleanup_resets_state (s : StoreState) (ct tt ct2 tt2 : Bool) :
    ((cleanup s ct tt).1.db = none ∧ (cleanup s ct tt).1.connection = none ∧
     (cleanup s ct tt).1.isInitialized = false ∧ (cleanup s ct tt).1.databases = [] ∧
     (cleanup s ct tt).1.queryHistory = [] ∧ (cleanup s ct tt).1.tabs = [homeTab] ∧
     (cleanup s ct tt).1.activeTabId = some "home" ∧
     (cleanup s ct tt).1.currentDatabase = "memory" ∧
     (cleanup s ct tt).1.currentConnection = none ∧ (cleanup s ct tt).1.error = none) ∧
    cleanup (cleanup s ct tt).1 ct2 tt2 = ((cleanup s ct tt).1, false) :=
  ⟨⟨rfl, rfl, rfl, rfl, rfl, rfl, rfl, rfl, rfl, rfl⟩, rfl⟩

/-- C5: closing a tab never empties the tab set.  If removal would empty
it, a fresh default query tab is created and activated; if the closed tab
was the active one (and tabs remain), activation falls to the new first
tab.  The hypothesis that tab ids are nonempty holds for every reachable
state (`"home"` or a `crypto.randomUUID()`), and rules out the JS
`updatedTabs[0]?.id || null` falsy fallback. -/
theorem closeTab_never_empty (tabs : List EditorTab) (activeTabId : Option String)
    (tabId newId : String) (hne : tabs ≠ [])
    (hids : ∀ t ∈ tabs, t.id ≠ "") :
    1 ≤ (closeTab tabs activeTabId tabId newId).1.length ∧
    (tabs.filter (fun t => t.id ≠ tabId) = [] →
      closeTab tabs activeTabId tabId newId = ([freshQueryTab newId], some newId)) ∧
    (activeTabId = some tabId → tabs.filter (fun t => t.id ≠ tabId) ≠ [] →
      (closeTab tabs activeTabId tabId newId).2 =
        ((tabs.filter (fun t => t.id ≠ tabId)).head?).map (fun t => t.id)) := by
  unfold closeTab
  generalize hu : tabs.filter (fun tab => tab.id ≠ tabId) = u
  cases u with
  | nil => simp
  | cons t rest =>
    have htmem : t ∈ tabs := by
      have : t ∈ tabs.filter (fun tab => tab.id ≠ tabId) := by
        rw [hu]; exact List.mem_cons_self t rest
      exact (List.mem_filter.mp this).1
    have htid : t.id ≠ "" := hids t htmem
    by_cases hact : activeTabId = some tabId <;> simp [hact, htid]

/-- C5 witness: closing the only (home) tab yields the fresh default
query tab, activated. -/
theorem closeTab_never_empty_witness :
    ([homeTab] : List EditorTab) ≠ [] ∧ (∀ t ∈ ([homeTab] : List EditorTab), t.id ≠ "") ∧
    (1 ≤ (closeTab [homeTab] (some "home") "home" "fresh-id").1.length ∧
     (([homeTab] : List EditorTab).filter (fun t => t.id ≠ "home") = [] →
       closeTab [homeTab] (some "home") "home" "fresh-id" =
         ([freshQueryTab "fresh-id"], some "fresh-id")) ∧
     ((some "home" : Option String) = some "home" →
       ([homeTab] : List EditorTab).filter (fun t => t.id ≠ "home") ≠ [] →
       (closeTab [homeTab] (some "home") "home" "fresh-id").2 =
         ((([homeTab] : List EditorTab).filter (fun t => t.id ≠ "home")).head?).map
           (fun t => t.id))) :=
  ⟨by simp, by simp [homeTab],
   closeTab_never_empty [homeTab] (some "home") "home" "fresh-id" (by simp)
     (by simp [homeTab])⟩

/-- C6: adding a connection whose name exactly matches an existing
name of an existing descriptor fails with the duplicate-name error before the liveness
probe is invoked (the returned flag records whether
`testExternalConnection` was called), and the connection list is
unchanged. -/
theorem addConnection_duplicate_name (s : StoreState) (conn : ConnectionProvider)
    (probe : Except String Unit)
    (h : ∃ c ∈ s.connectionList.connections, c.name = conn.name) :
    (addConnection s conn probe).2 = false ∧
    (addConnection s conn probe).1.connectionList = s.connectionList ∧
    (addConnection s conn probe).1.error =
      some ("Failed to add connection: A connection with the name \"" ++ conn.name
        ++ "\" already exists.") := by
  have hfind : (s.connectionList.connections.find? (fun c => c.name = conn.name)).isSome := by
    rw [List.find?_isSome]
    obtain ⟨c, hc, hname⟩ := h
    exact ⟨c, hc, by simp [hname]⟩
  refine ⟨?_, ?_, ?_⟩ <;> simp [addConnection, hfind]

/-- C6 witness: adding an external connection named `WASM` to the initial
state (which already contains a descriptor of that name) is rejected with
no probe call and an unchanged registry, even with a succeeding probe. -/
theorem addConnection_duplicate_name_witness :
    (∃ c ∈ initialStoreState.connectionList.connections,
       c.name = ({ id := "x", name := "WASM", scope := Scope.External } : ConnectionProvider).name) ∧
    ((addConnection initialStoreState
        { id := "x", name := "WASM", scope := Scope.External } (Except.ok ())).2 = false ∧
     (addConnection initialStoreState
        { id := "x", name := "WASM", scope := Scope.External } (Except.ok ())).1.connectionList =
       initialStoreState.connectionList ∧
     (addConnection initialStoreState
        { id := "x", name := "WASM", scope := Scope.External } (Except.ok ())).1.error =
       some ("Failed to add connection: A connection with the name \""
         ++ ({ id := "x", name := "WASM", scope := Scope.External } : ConnectionProvider).name
         ++ "\" already exists.")) :=
  ⟨⟨wasmDescriptor, by simp [initialStoreState], rfl⟩,
   addConnection_duplicate_name initialStoreState
     { id := "x", name := "WASM", scope := Scope.External } (Except.ok ())
     ⟨wasmDescriptor, by simp [initialStoreState], rfl⟩⟩

/-- Taking fifteen entries of a nonempty list keeps its head. -/
theorem head?_take_fifteen {α : Type} (a : α) (l : List α) :
    ((a :: l).take 15).head? = some a := rfl

/-- The ledger after `updateHistory` always starts with the fresh item. -/
theorem updateHistory_head (cur : List QueryHistoryItem) (query : String)
    (em : Option String) (newId : String) (now : Nat) :
    (updateHistory cur query em newId now).head? = some (mkHistoryItem newId query now em) := by
  unfold updateHistory
  cases h : cur.findIdx? (fun item => item.query = query) <;>
    simp [head?_take_fifteen]

/-- Reduction of `executeQuery` when the backend call fails: the catch
branch converts the thrown error into state and returns `undefined`.  The
hypothesis states that the backend call actually happens (the active
scope is external, or the embedded handle is non-null so
`validateConnection` passes). -/
theorem executeQuery_error_eq (s : StoreState) (query : String)
    (tabId : Option String) (msg newId : String) (now : Nat)
    (fr : Except String (List DatabaseInfo))
    (hconn : s.currentConnection.map (fun c => c.scope) = some Scope.External ∨
      s.connection.isSome) :
    executeQuery s query tabId (Except.error msg) newId now fr =
      ({ s with
          queryHistory := updateHistory s.queryHistory query (some msg) newId now
          tabs := s.tabs.map (fun tab =>
            if some tab.id = tabId then { tab with result := some (errorQueryResult msg) }
            else tab)
          isExecuting := false
          error := some msg }, none, 0) := by
  by_cases hext : s.currentConnection.map (fun c => c.scope) = some Scope.External
  · simp [executeQuery, hext]
  · obtain ⟨u, hu⟩ := Option.isSome_iff_exists.mp (hconn.resolve_left hext)
    simp [executeQuery, hext, hu]

/-- C3: on a failing backend call, `executeQuery` never throws: it
returns `undefined`, attaches a `QueryResult` with empty columns and rows
and the error message as data to the addressed tab, records a history
entry carrying that error, clears the executing flag, and sets the
session error state to the message.  The embedding of `executeQuery` is a
total function, which is the never-throws boundary of the try/catch in the source. -/
theorem executeQuery_failure_as_data (s : StoreState) (query : String)
    (tabId : Option String) (msg newId : String) (now : Nat)
    (fr : Except String (List DatabaseInfo)) (hmsg : msg ≠ "")
    (hconn : s.currentConnection.map (fun c => c.scope) = some Scope.External ∨
      s.connection.isSome) :
    (executeQuery s query tabId (Except.error msg) newId now fr).2.1 = none ∧
    (executeQuery s query tabId (Except.error msg) newId now fr).1.error = some msg ∧
    (executeQuery s query tabId (Except.error msg) newId now fr).1.queryHistory.head? =
      some { id := newId, query := query, timestamp := now, error := some msg } ∧
    (∀ tab ∈ (executeQuery s query tabId (Except.error msg) newId now fr).1.tabs,
      some tab.id = tabId →
        tab.result = some { columns := [], columnTypes := [], data := [], rowCount := 0,
                            error := some msg }) ∧
    (executeQuery s query tabId (Except.error msg) newId now fr).1.isExecuting = false := by
  rw [executeQuery_error_eq s query tabId msg newId now fr hconn]
  refine ⟨rfl, rfl, ?_, ?_, rfl⟩
  · rw [updateHistory_head]
    simp [mkHistoryItem, hmsg]
  · intro tab htab hid
    rcases List.mem_map.mp htab with ⟨orig, _, horig⟩
    by_cases hmatch : some orig.id = tabId
    · rw [← horig]
      simp [hmatch, errorQueryResult]
    · rw [← horig] at hid ⊢
      simp [hmatch] at hid

/-- C3 witness: a failing query on an initialized embedded session. -/
theorem executeQuery_failure_as_data_witness :
    ("boom" : String) ≠ "" ∧
    (({ initialStoreState with connection := some (), db := some () } :
        StoreState).currentConnection.map (fun c => c.scope) = some Scope.External ∨
      ({ initialStoreState with connection := some (), db := some () } :
        StoreState).connection.isSome) ∧
    ((executeQuery { initialStoreState with connection := some (), db := some () }
        "SELECT broken" (some "home") (Except.error "boom") "id1" 5
        (Except.ok [])).2.1 = none ∧
     (executeQuery { initialStoreState with connection := some (), db := some () }
        "SELECT broken" (some "home") (Except.error "boom") "id1" 5
        (Except.ok [])).1.error = some "boom" ∧
     (executeQuery { initialStoreState with connection := some (), db := some () }
        "SELECT broken" (some "home") (Except.error "boom") "id1" 5
        (Except.ok [])).1.queryHistory.head? =
       some { id := "id1", query := "SELECT broken", timestamp := 5, error := some "boom" } ∧
     (∀ tab ∈ (executeQuery { initialStoreState with connection := some (), db := some () }
        "SELECT broken" (some "home") (Except.error "boom") "id1" 5
        (Except.ok [])).1.tabs,
       some tab.id = some "home" →
         tab.result = some { columns := [], columnTypes := [], data := [], rowCount := 0,
                             error := some "boom" }) ∧
     (executeQuery { initialStoreState with connection := some (), db := some () }
        "SELECT broken" (some "home") (Except.error "boom") "id1" 5
        (Except.ok [])).1.isExecuting = false) :=
  ⟨by decide, Or.inr rfl,
   executeQuery_failure_as_data { initialStoreState with connection := some (), db := some () }
     "SELECT broken" (some "home") "boom" "id1" 5 (Except.ok []) (by decide) (Or.inr rfl)⟩

/-- C7: on a successful execution, `executeQuery` triggers exactly one
schema refresh when the trimmed query text starts with
CREATE/ALTER/DROP/ATTACH (case-insensitively) and zero otherwise, for
example once for `CREATE TABLE t(x INT)` and zero times for `SELECT 1`;
the returned value does not depend on the refresh outcome `fr`, so a
refresh failure does not fail the query. -/
theorem executeQuery_ddl_refresh (s : StoreState) (query : String)
    (tabId : Option String) (r : QueryResult) (newId : String) (now : Nat)
    (fr : Except String (List DatabaseInfo))
    (hconn : s.currentConnection.map (fun c => c.scope) = some Scope.External ∨
      s.connection.isSome) :
    (executeQuery s query tabId (Except.ok r) newId now fr).2.2 =
      (if isDDL query then 1 else 0) ∧
    (executeQuery s query tabId (Except.ok r) newId now fr).2.1 =
      (if tabId.isSome then none else some r) ∧
    isDDL "CREATE TABLE t(x INT)" = true ∧ isDDL "SELECT 1" = false := by
  refine ⟨?_, ?_, by decide, by decide⟩ <;>
  · by_cases hext : s.currentConnection.map (fun c => c.scope) = some Scope.External
    · simp only [executeQuery, hext]
      by_cases hddl : isDDL query <;> simp [hddl]
    · obtain ⟨u, hu⟩ := Option.isSome_iff_exists.mp (hconn.resolve_left hext)
      simp only [executeQuery, hext, hu]
      by_cases hddl : isDDL query <;> simp [hddl]

/-- C7 witness: a successful DDL query on an initialized embedded session
with a failing refresh still returns its result and triggers exactly one
refresh. -/
theorem executeQuery_ddl_refresh_witness :
    (({ initialStoreState with connection := some (), db := some () } :
        StoreState).currentConnection.map (fun c => c.scope) = some Scope.External ∨
      ({ initialStoreState with connection := some (), db := some () } :
        StoreState).connection.isSome) ∧
    ((executeQuery { initialStoreState with connection := some (), db := some () }
        "CREATE TABLE t(x INT)" none
        (Except.ok { columns := [], columnTypes := [], data := [], rowCount := 0 }) "id1" 5
        (Except.error "refresh failed")).2.2 =
      (if isDDL "CREATE TABLE t(x INT)" then 1 else 0) ∧
     (executeQuery { initialStoreState with connection := some (), db := some () }
        "CREATE TABLE t(x INT)" none
        (Except.ok { columns := [], columnTypes := [], data := [], rowCount := 0 }) "id1" 5
        (Except.error "refresh failed")).2.1 =
      (if (none : Option String).isSome then none
       else some { columns := [], columnTypes := [], data := [], rowCount := 0 }) ∧
     isDDL "CREATE TABLE t(x INT)" = true ∧ isDDL "SELECT 1" = false) :=
  ⟨Or.inr rfl,
   executeQuery_ddl_refresh { initialStoreState with connection := some (), db := some () }
     "CREATE TABLE t(x INT)" none
     { columns := [], columnTypes := [], data := [], rowCount := 0 } "id1" 5
     (Except.error "refresh failed") (Or.inr rfl)⟩

/-- If the queries in a ledger are pairwise distinct, then after erasing
the entry found by `findIndex` no entry with the searched query text
remains. -/
theorem no_match_after_eraseIdx (q : String) :
    ∀ (l : List QueryHistoryItem) (i : Nat),
      ((l.map (fun it => it.query)).Nodup) →
      l.findIdx? (fun it => it.query = q) = some i →
      ∀ x ∈ l.eraseIdx i, x.query ≠ q := by
  intro l
  induction l with
  | nil => intro i _ hfind; simp [List.findIdx?] at hfind
  | cons a tl ih =>
    intro i hnd hfind
    rw [List.findIdx?_cons] at hfind
    simp only [List.map_cons, List.nodup_cons] at hnd
    by_cases hpa : a.query = q
    · have h0 : i = 0 := by simp [hpa] at hfind; omega
      subst h0
      rw [List.eraseIdx_cons_zero]
      intro x hx hxq
      exact hnd.1 (by rw [hpa, ← hxq]; exact List.mem_map_of_mem _ hx)
    · simp only [hpa, decide_False, Bool.false_eq_true, if_false] at hfind
      rw [show (1 : Nat) = 0 + 1 from rfl, List.findIdx?_succ] at hfind
      cases hj : tl.findIdx? (fun it => it.query = q) with
      | none => rw [hj] at hfind; simp at hfind
      | some j =>
        rw [hj] at hfind
        simp at hfind
        have hi : i = j + 1 := by omega
        subst hi
        rw [List.eraseIdx_cons_succ]
        intro x hx
        rcases List.mem_cons.mp hx with rfl | hx2
        · exact hpa
        · exact ih j hnd.2 hj x hx2

/-- Core ledger facts: prepending the fresh item to any sublist of the
old ledger without entries for the recorded query, then truncating to 15,
yields a ledger of at most 15 entries, with pairwise-distinct query texts
and non-increasing timestamps. -/
theorem ledger_core (cur e : List QueryHistoryItem) (query : String)
    (em : Option String) (newId : String) (now : Nat)
    (hsub : e.Sublist cur)
    (hno : ∀ x ∈ e, x.query ≠ query)
    (hnodup : (cur.map (fun it => it.query)).Nodup)
    (hsorted : cur.Pairwise (fun a b => b.timestamp ≤ a.timestamp))
    (hts : ∀ it ∈ cur, it.timestamp ≤ now) :
    ((mkHistoryItem newId query now em :: e).take 15).length ≤ 15 ∧
    (((mkHistoryItem newId query now em :: e).take 15).map (fun it => it.query)).Nodup ∧
    ((mkHistoryItem newId query now em :: e).take 15).Pairwise
      (fun a b => b.timestamp ≤ a.timestamp) := by
  have h15 : (mkHistoryItem newId query now em :: e).take 15 =
      mkHistoryItem newId query now em :: e.take 14 := by
    rw [show (15 : Nat) = 14 + 1 from rfl, List.take_succ_cons]
  refine ⟨?_, ?_, ?_⟩
  · rw [List.length_take]; exact min_le_left _ _
  · rw [h15, List.map_cons, List.nodup_cons]
    constructor
    · intro hmem
      rcases List.mem_map.mp hmem with ⟨x, hx, hxq⟩
      exact hno x ((List.take_sublist 14 e).mem hx) (by simpa [mkHistoryItem] using hxq)
    · exact hnodup.sublist (List.Sublist.map _ ((List.take_sublist 14 e).trans hsub))
  · rw [h15, List.pairwise_cons]
    constructor
    · intro b hb
      simpa [mkHistoryItem] using hts b (hsub.mem ((List.take_sublist 14 e).mem hb))
    · exact List.Pairwise.sublist ((List.take_sublist 14 e).trans hsub) hsorted

/-- C4: on any ledger state satisfying the ledger invariants (distinct
query texts, most-recent-first timestamps all at or before the recording
instant), the ledger after `updateHistory` has at most 15 entries, starts
with the fresh entry for the recorded query (so re-recording a present
text yields a new front entry, not a duplicate), keeps query texts
pairwise distinct, and stays ordered most-recent-first. -/
theorem updateHistory_ledger (cur : List QueryHistoryItem) (query : String)
    (em : Option String) (newId : String) (now : Nat)
    (hnodup : (cur.map (fun it => it.query)).Nodup)
    (hsorted : cur.Pairwise (fun a b => b.timestamp ≤ a.timestamp))
    (hts : ∀ it ∈ cur, it.timestamp ≤ now) :
    (updateHistory cur query em newId now).length ≤ 15 ∧
    (updateHistory cur query em newId now).head? =
      some (mkHistoryItem newId query now em) ∧
    ((updateHistory cur query em newId now).map (fun it => it.query)).Nodup ∧
    (updateHistory cur query em newId now).Pairwise
      (fun a b => b.timestamp ≤ a.timestamp) := by
  have key : (updateHistory cur query em newId now).length ≤ 15 ∧
      ((updateHistory cur query em newId now).map (fun it => it.query)).Nodup ∧
      (updateHistory cur query em newId now).Pairwise
        (fun a b => b.timestamp ≤ a.timestamp) := by
    unfold updateHistory
    cases hf : cur.findIdx? (fun item => item.query = query) with
    | none =>
      have hno : ∀ x ∈ cur, x.query ≠ query := by
        intro x hx
        simpa using List.findIdx?_eq_none_iff.mp hf x hx
      simpa using ledger_core cur cur query em newId now (List.Sublist.refl cur)
        hno hnodup hsorted hts
    | some i =>
      simpa using ledger_core cur (cur.eraseIdx i) query em newId now
        (List.eraseIdx_sublist cur i)
        (no_match_after_eraseIdx query cur i hnodup hf) hnodup hsorted hts
  exact ⟨key.1, updateHistory_head cur query em newId now, key.2.1, key.2.2⟩

/-- C4 witness: re-recording the already-present query text `q1` on a
one-entry ledger. -/
theorem updateHistory_ledger_witness :
    (([{ id := "a", query := "q1", timestamp := 3 }] :
        List QueryHistoryItem).map (fun it => it.query)).Nodup ∧
    ([{ id := "a", query := "q1", timestamp := 3 }] :
        List QueryHistoryItem).Pairwise (fun a b => b.timestamp ≤ a.timestamp) ∧
    (∀ it ∈ ([{ id := "a", query := "q1", timestamp := 3 }] :
        List QueryHistoryItem), it.timestamp ≤ 5) ∧
    ((updateHistory [{ id := "a", query := "q1", timestamp := 3 }] "q1" none "b" 5).length ≤ 15 ∧
     (updateHistory [{ id := "a", query := "q1", timestamp := 3 }] "q1" none "b" 5).head? =
       some (mkHistoryItem "b" "q1" 5 none) ∧
     ((updateHistory [{ id := "a", query := "q1", timestamp := 3 }] "q1" none "b" 5).map
        (fun it => it.query)).Nodup ∧
     (updateHistory [{ id := "a", query := "q1", timestamp := 3 }] "q1" none "b" 5).Pairwise
       (fun a b => b.timestamp ≤ a.timestamp)) :=
  ⟨by decide, by decide, by decide,
   updateHistory_ledger [{ id := "a", query := "q1", timestamp := 3 }] "q1" none "b" 5
     (by decide) (by decide) (by decide)⟩

/-- Keys after a JS property assignment: the old keys plus the assigned
key. -/
theorem objSet_keys_mem (o : RowObj) (k : String) (v : JSVal) (x : String) :
    x ∈ (objSet o k v).map Prod.fst ↔ x ∈ o.map Prod.fst ∨ x = k := by
  unfold objSet
  by_cases hany : (o.any (fun p => p.1 = k)) = true
  · have hkeys : (o.map (fun p => if p.1 = k then (k, v) else p)).map Prod.fst =
        o.map Prod.fst := by
      rw [List.map_map]
      apply List.map_congr_left
      intro p _
      by_cases hp : p.1 = k <;> simp [hp]
    have hk : k ∈ o.map Prod.fst := by
      rcases List.any_eq_true.mp hany with ⟨p, hp, hpk⟩
      exact List.mem_map.mpr ⟨p, hp, of_decide_eq_true hpk⟩
    simp only [hany, if_true, hkeys]
    constructor
    · exact Or.inl
    · rintro (h | rfl)
      · exact h
      · exact hk
  · simp only [hany, if_false, List.map_append]
    simp

/-- Keys accumulated by the `forEach` fold over the enumerated columns. -/
theorem foldl_objSet_keys (row : List JSVal) :
    ∀ (ps : List (Nat × String)) (o : RowObj) (x : String),
      (x ∈ (ps.foldl
          (fun o p => objSet o p.2 ((row.get? p.1).getD JSVal.undefined)) o).map Prod.fst) ↔
        x ∈ o.map Prod.fst ∨ x ∈ ps.map Prod.snd := by
  intro ps
  induction ps with
  | nil => intro o x; simp
  | cons p ptl ih =>
    intro o x
    rw [List.foldl_cons, ih, objSet_keys_mem]
    simp only [List.map_cons, List.mem_cons]
    tauto

/-- The row object built by `rawResultToJSON` has exactly the column
names as its keys. -/
theorem buildRow_keys (columns : List String) (row : List JSVal) (x : String) :
    x ∈ (buildRow columns row).map Prod.fst ↔ x ∈ columns := by
  unfold buildRow
  rw [foldl_objSet_keys]
  simp [List.enum_map_snd]

/-- C8: every `QueryResult` produced by either normalizer has as many
column names as column types, and on the remote path every row object has
exactly the keys listed in `columns` (key sets coincide; JS object keys
cannot repeat, so duplicate column names collapse in the row object). -/
theorem normalizers_shape :
    (∀ (localeDateString : JSVal → String) (newDate : JSVal → JSVal) (r : ArrowResult),
      (resultToJSON localeDateString newDate r).columns.length =
        (resultToJSON localeDateString newDate r).columnTypes.length) ∧
    (∀ (parsed : JSVal) (res : QueryResult),
      rawResultToJSON parsed = Except.ok res →
      res.columns.length = res.columnTypes.length ∧
      ∀ row ∈ res.data, ∀ k, (k ∈ row.map Prod.fst ↔ k ∈ res.columns)) := by
  constructor
  · intro _ _ r
    simp [resultToJSON]
  · intro parsed res h
    unfold rawResultToJSON at h
    split at h
    · rcases h with ⟨⟩
      refine ⟨by simp, ?_⟩
      intro row hrow k
      rcases List.mem_map.mp hrow with ⟨d, _, rfl⟩
      exact buildRow_keys _ _ k
    · exact absurd h (by simp)

/-- Sample remote result envelope: one `Int32` column `a`, one row. -/
def sampleEnvelope : JSVal :=
  JSVal.obj
    [("meta", JSVal.arr [JSVal.obj [("name", JSVal.str "a"), ("type", JSVal.str "Int32")]]),
     ("data", JSVal.arr [JSVal.arr [JSVal.num 1]]),
     ("rows", JSVal.num 1)]

/-- Normalized form of `sampleEnvelope`. -/
def sampleResult : QueryResult :=
  { columns := ["a"], columnTypes := ["Int32"], data := [[("a", JSVal.num 1)]], rowCount := 1 }

/-- C8 witness: the sample envelope normalizes successfully and the
resulting shape facts hold for it. -/
theorem normalizers_shape_witness :
    rawResultToJSON sampleEnvelope = Except.ok sampleResult ∧
    (sampleResult.columns.length = sampleResult.columnTypes.length ∧
     ∀ row ∈ sampleResult.data, ∀ k, (k ∈ row.map Prod.fst ↔ k ∈ sampleResult.columns)) :=
  ⟨rfl, normalizers_shape.2 sampleEnvelope sampleResult rfl⟩

end DuckUI
